import Mathlib

/-!
Shallow embedding of `src/contracts/geo_quest_fhe.sol` (contract `GeoQuestFHE`).

The contract stores encrypted locations in `mapping(string => LocationData)`
plus an insertion-order array `string[] locationIds`.  The FHE engine is
modelled semantically: an `euint32` carries the 32-bit plaintext it encrypts
together with its `isInitialized` flag, and the homomorphic operations
(`FHE.sub`, `FHE.mul`, `FHE.add`, `FHE.le`) act on the plaintexts modulo
`2^32`, which is the semantics of fhevm euint32 arithmetic (wrapping).
Signature checking (`FHE.checkSignatures`) is an opaque oracle, modelled as a
boolean-valued function supplied from outside.  A Solidity `revert`
(failed `require`) is modelled by returning `Except.error`, and the
transactional semantics (revert leaves storage untouched) by `applyOp`
returning the pre-state on error.
-/

namespace GeoQuestFHE

/-- Word bound of the `euint32` encrypted-integer type: `2^32`. -/
def W : Nat := 2 ^ 32

/-- Word bound of Solidity `uint256`. -/
def W256 : Nat := 2 ^ 256

/-- An `externalEuint32` input together with its zero-knowledge input proof:
`val` is the plaintext the external ciphertext encrypts, `validProof` records
whether the accompanying proof is accepted by `FHE.fromExternal`. -/
structure ExternalEuint32 where
  val : Nat
  validProof : Bool
deriving DecidableEq

/-- An `euint32` ciphertext handle: the 32-bit plaintext it encrypts and its
`FHE.isInitialized` status (uninitialized when produced from an invalid
external input). -/
structure Euint32 where
  val : Nat
  initialized : Bool
deriving DecidableEq

/-- `FHE.fromExternal`: validate an external ciphertext input; on a valid
proof it yields an initialized handle for the encrypted 32-bit value, on an
invalid proof an uninitialized handle. -/
def fromExternal (e : ExternalEuint32) : Euint32 :=
  if e.validProof then ⟨e.val % W, true⟩ else ⟨0, false⟩

/-- `FHE.isInitialized`. -/
def isInitialized (a : Euint32) : Bool := a.initialized

/-- `FHE.sub` on euint32: wrapping subtraction modulo `2^32`. -/
def fheSub (a b : Euint32) : Euint32 :=
  ⟨(a.val + W - b.val) % W, a.initialized && b.initialized⟩

/-- `FHE.mul` on euint32: wrapping multiplication modulo `2^32`. -/
def fheMul (a b : Euint32) : Euint32 :=
  ⟨(a.val * b.val) % W, a.initialized && b.initialized⟩

/-- `FHE.add` on euint32: wrapping addition modulo `2^32`. -/
def fheAdd (a b : Euint32) : Euint32 :=
  ⟨(a.val + b.val) % W, a.initialized && b.initialized⟩

/-- Trivial encryption of a plaintext into an euint32 handle
(the `FHE.euint32(...)` cast on line 112): truncates to 32 bits. -/
def asEuint32 (n : Nat) : Euint32 := ⟨n % W, true⟩

/-- `FHE.le` on euint32: comparison of the encrypted 32-bit values. -/
def fheLeq (a b : Euint32) : Bool := a.val ≤ b.val

/-- The signature-checking oracle behind `FHE.checkSignatures`: given the
bytes32 handles list, the abi-encoded clear value (modelled as the decoded
number) and the decryption proof bytes, it accepts or rejects. -/
structure FHEOracle where
  checkSignatures : List Nat → Nat → List Nat → Bool

/-- `struct LocationData` of the contract (addresses modelled as `Nat`). -/
structure LocationData where
  locationId : String
  encryptedLatitude : Euint32
  encryptedLongitude : Euint32
  publicRadius : Nat
  description : String
  creator : Nat
  timestamp : Nat
  isVerified : Bool
  decryptedLatitude : Nat
  decryptedLongitude : Nat
deriving DecidableEq

/-- A Solidity mapping slot that was never written: all fields zeroed. -/
def emptyRecord : LocationData :=
  { locationId := "", encryptedLatitude := ⟨0, false⟩,
    encryptedLongitude := ⟨0, false⟩, publicRadius := 0, description := "",
    creator := 0, timestamp := 0, isVerified := false,
    decryptedLatitude := 0, decryptedLongitude := 0 }

/-- Contract storage: `mapping(string => LocationData) locationData` and
`string[] locationIds`. -/
structure ContractState where
  locationData : String → LocationData
  locationIds : List String

/-- Storage of a freshly deployed contract: every mapping slot zeroed,
empty id array. -/
def initialState : ContractState := ⟨fun _ => emptyRecord, []⟩

/-- The revert reasons of the contract, one per `require` (the last one is
the failure of `FHE.checkSignatures`).  The spec names them `DuplicateId`,
`InvalidCiphertextProof`, `NotFound`, `AlreadyVerified`, `NotVerified`,
`InvalidSignatureProof`; `panicOverflow` is the Solidity 0.8 checked-overflow
panic on the native `uint256` multiplication `publicRadius * publicRadius`. -/
inductive GeoError where
  | locationAlreadyExists
  | invalidEncryptedLatitude
  | invalidEncryptedLongitude
  | locationDoesNotExist
  | locationAlreadyVerified
  | locationNotVerified
  | signatureCheckFailed
  | panicOverflow
deriving DecidableEq

/-- `createLocation` (lines 29-62).  The existence check is
`bytes(locationData[locationId].locationId).length == 0`, i.e. the stored
id string is empty; then the two external ciphertexts must validate
(`FHE.isInitialized(FHE.fromExternal(...))`); on success the record is
written and the id pushed onto `locationIds`.  The capability grants
(`allowThis`, `makePubliclyDecryptable`) have no effect on modelled state. -/
def createLocation (s : ContractState) (locationId : String)
    (encryptedLatitude encryptedLongitude : ExternalEuint32)
    (publicRadius : Nat) (description : String) (sender timestamp : Nat) :
    Except GeoError ContractState :=
  if (s.locationData locationId).locationId ≠ "" then
    .error .locationAlreadyExists
  else if ¬ isInitialized (fromExternal encryptedLatitude) then
    .error .invalidEncryptedLatitude
  else if ¬ isInitialized (fromExternal encryptedLongitude) then
    .error .invalidEncryptedLongitude
  else
    .ok { locationData := fun id =>
            if id = locationId then
              { locationId := locationId,
                encryptedLatitude := fromExternal encryptedLatitude,
                encryptedLongitude := fromExternal encryptedLongitude,
                publicRadius := publicRadius,
                description := description,
                creator := sender,
                timestamp := timestamp,
                isVerified := false,
                decryptedLatitude := 0,
                decryptedLongitude := 0 }
            else s.locationData id,
          locationIds := s.locationIds ++ [locationId] }

/-- `verifyLocation` (lines 64-89).  Preconditions: stored id string
nonempty (exists) and not already verified.  Both signature checks run
against the same two-element handle array `cts`; the clear bytes are
modelled as the already-decoded `uint32` values (for a well-formed abi
encoding of a `uint32`, `abi.decode` returns exactly the value).  On
success the decoded pair is written, the flag set, and the pair returned
(the payload of the `LocationVerified` event). -/
def verifyLocation (oracle : FHEOracle) (s : ContractState)
    (locationId : String) (clearLatitude clearLongitude : Nat)
    (latitudeProof longitudeProof : List Nat) :
    Except GeoError (ContractState × Nat × Nat) :=
  if (s.locationData locationId).locationId = "" then
    .error .locationDoesNotExist
  else if (s.locationData locationId).isVerified then
    .error .locationAlreadyVerified
  else
    let cts : List Nat := [(s.locationData locationId).encryptedLatitude.val,
                           (s.locationData locationId).encryptedLongitude.val]
    if ¬ oracle.checkSignatures cts clearLatitude latitudeProof then
      .error .signatureCheckFailed
    else if ¬ oracle.checkSignatures cts clearLongitude longitudeProof then
      .error .signatureCheckFailed
    else
      .ok ({ locationData := fun id =>
               if id = locationId then
                 { s.locationData locationId with
                   decryptedLatitude := clearLatitude,
                   decryptedLongitude := clearLongitude,
                   isVerified := true }
               else s.locationData id,
             locationIds := s.locationIds },
           clearLatitude, clearLongitude)

/-- `checkLocationProximity` (lines 91-115).  Preconditions first: record
exists, record verified.  Then the claimant ciphertexts are imported, the
squared distance computed homomorphically mod `2^32`, and compared against
`radius²` (a native `uint256` multiplication — Solidity 0.8 checked, hence
the panic case — truncated to 32 bits by the `FHE.euint32` cast). -/
def checkLocationProximity (s : ContractState) (locationId : String)
    (encryptedUserLatitude encryptedUserLongitude : ExternalEuint32) :
    Except GeoError Bool :=
  if (s.locationData locationId).locationId = "" then
    .error .locationDoesNotExist
  else if ¬ (s.locationData locationId).isVerified then
    .error .locationNotVerified
  else if W256 ≤ (s.locationData locationId).publicRadius *
                 (s.locationData locationId).publicRadius then
    .error .panicOverflow
  else
    let userLatitude := fromExternal encryptedUserLatitude
    let userLongitude := fromExternal encryptedUserLongitude
    let latitudeDiff := fheSub userLatitude
        (s.locationData locationId).encryptedLatitude
    let longitudeDiff := fheSub userLongitude
        (s.locationData locationId).encryptedLongitude
    let distanceSquared := fheAdd (fheMul latitudeDiff latitudeDiff)
        (fheMul longitudeDiff longitudeDiff)
    let radiusSquared := asEuint32
        ((s.locationData locationId).publicRadius *
         (s.locationData locationId).publicRadius)
    .ok (fheLeq distanceSquared radiusSquared)

/-- The view tuple returned by `getLocationData` (lines 117-134): note that
the decrypted coordinates are NOT part of it. -/
structure LocationView where
  description : String
  creator : Nat
  timestamp : Nat
  isVerified : Bool
  publicRadius : Nat
deriving DecidableEq

/-- `getLocationData` (lines 117-134): requires existence, then returns the
five public fields. -/
def getLocationData (s : ContractState) (locationId : String) :
    Except GeoError LocationView :=
  if (s.locationData locationId).locationId = "" then
    .error .locationDoesNotExist
  else
    .ok { description := (s.locationData locationId).description,
          creator := (s.locationData locationId).creator,
          timestamp := (s.locationData locationId).timestamp,
          isVerified := (s.locationData locationId).isVerified,
          publicRadius := (s.locationData locationId).publicRadius }

/-- `getAllLocationIds` (lines 136-138). -/
def getAllLocationIds (s : ContractState) : List String := s.locationIds

/-- One external call to the contract (views included, they never change
storage). -/
inductive Op where
  | create (locationId : String)
      (encryptedLatitude encryptedLongitude : ExternalEuint32)
      (publicRadius : Nat) (description : String) (sender timestamp : Nat)
  | verify (locationId : String) (clearLatitude clearLongitude : Nat)
      (latitudeProof longitudeProof : List Nat)
  | checkProx (locationId : String)
      (encryptedUserLatitude encryptedUserLongitude : ExternalEuint32)
  | getLoc (locationId : String)
  | listIds

/-- Transactional semantics: a reverting call leaves storage untouched,
view calls never write. -/
def applyOp (oracle : FHEOracle) (s : ContractState) : Op → ContractState
  | .create locationId eLat eLng r d sender ts =>
      match createLocation s locationId eLat eLng r d sender ts with
      | .ok s' => s'
      | .error _ => s
  | .verify locationId cLat cLng pLat pLng =>
      match verifyLocation oracle s locationId cLat cLng pLat pLng with
      | .ok (s', _, _) => s'
      | .error _ => s
  | .checkProx _ _ _ => s
  | .getLoc _ => s
  | .listIds => s

/-- Run a sequence of external calls. -/
def execOps (oracle : FHEOracle) (s : ContractState) : List Op → ContractState
  | [] => s
  | op :: ops => execOps oracle (applyOp oracle s op) ops

/-- An oracle that accepts every decryption signature. -/
def yesOracle : FHEOracle := ⟨fun _ _ _ => true⟩

/-- An oracle that rejects every decryption signature. -/
def noOracle : FHEOracle := ⟨fun _ _ _ => false⟩

/-- A storage state holding one already-verified record under id `"a"`
with the given encrypted center and public radius. -/
def mkVerified (centerLat centerLng radius : Nat) : ContractState :=
  { locationData := fun id =>
      if id = "a" then
        { locationId := "a", encryptedLatitude := ⟨centerLat, true⟩,
          encryptedLongitude := ⟨centerLng, true⟩, publicRadius := radius,
          description := "d", creator := 1, timestamp := 0,
          isVerified := true, decryptedLatitude := centerLat,
          decryptedLongitude := centerLng }
      else emptyRecord,
    locationIds := ["a"] }

lemma isInitialized_fromExternal (e : ExternalEuint32) :
    isInitialized (fromExternal e) = e.validProof := by
  rcases e with ⟨v, b⟩
  cases b <;> rfl

/-- Inversion of a successful `createLocation`: the slot was empty, both
input proofs were valid, and the new state is the old one with the fresh
record written and the id appended. -/
lemma createLocation_ok_inv {s : ContractState} {locationId : String}
    {e₁ e₂ : ExternalEuint32} {r : Nat} {d : String} {snd ts : Nat}
    {s' : ContractState}
    (h : createLocation s locationId e₁ e₂ r d snd ts = .ok s') :
    (s.locationData locationId).locationId = "" ∧
    e₁.validProof = true ∧ e₂.validProof = true ∧
    s' = { locationData := fun id =>
             if id = locationId then
               { locationId := locationId,
                 encryptedLatitude := fromExternal e₁,
                 encryptedLongitude := fromExternal e₂,
                 publicRadius := r, description := d, creator := snd,
                 timestamp := ts, isVerified := false,
                 decryptedLatitude := 0, decryptedLongitude := 0 }
             else s.locationData id,
           locationIds := s.locationIds ++ [locationId] } := by
  simp only [createLocation] at h
  split_ifs at h with h1 h2 h3
  simp only [Except.ok.injEq] at h
  rw [isInitialized_fromExternal] at h2 h3
  simp only [Bool.not_eq_true] at h1 h2 h3
  exact ⟨by simpa using h1, by simpa using h2, by simpa using h3, h.symm⟩

/-- Inversion of a successful `verifyLocation`: the record existed and was
unverified, the returned pair is the decoded input pair, and the new state
updates exactly the target record's two decrypted fields and flag. -/
lemma verifyLocation_ok_inv {oracle : FHEOracle} {s : ContractState}
    {locationId : String} {cLat cLng : Nat} {pLat pLng : List Nat}
    {s' : ContractState} {lat lng : Nat}
    (h : verifyLocation oracle s locationId cLat cLng pLat pLng =
          .ok (s', lat, lng)) :
    (s.locationData locationId).locationId ≠ "" ∧
    (s.locationData locationId).isVerified = false ∧
    lat = cLat ∧ lng = cLng ∧
    s' = { locationData := fun id =>
             if id = locationId then
               { locationId := (s.locationData locationId).locationId,
                 encryptedLatitude :=
                   (s.locationData locationId).encryptedLatitude,
                 encryptedLongitude :=
                   (s.locationData locationId).encryptedLongitude,
                 publicRadius := (s.locationData locationId).publicRadius,
                 description := (s.locationData locationId).description,
                 creator := (s.locationData locationId).creator,
                 timestamp := (s.locationData locationId).timestamp,
                 isVerified := true, decryptedLatitude := cLat,
                 decryptedLongitude := cLng }
             else s.locationData id,
           locationIds := s.locationIds } := by
  simp only [verifyLocation] at h
  split_ifs at h with h1 h2 h3 h4
  simp only [Except.ok.injEq, Prod.mk.injEq] at h
  obtain ⟨hs, hlat, hlng⟩ := h
  exact ⟨h1, by simpa using h2, hlat.symm, hlng.symm, hs.symm⟩

/-- A record that exists and is verified is frozen: no single contract
call changes it. -/
lemma applyOp_frozen (oracle : FHEOracle) (s : ContractState) (op : Op)
    (locationId : String)
    (hne : (s.locationData locationId).locationId ≠ "")
    (hv : (s.locationData locationId).isVerified = true) :
    (applyOp oracle s op).locationData locationId =
      s.locationData locationId := by
  cases op with
  | create j e₁ e₂ r d snd ts =>
    cases hc : createLocation s j e₁ e₂ r d snd ts with
    | error e => simp [applyOp, hc]
    | ok s₂ =>
      obtain ⟨hj, -, -, hs₂⟩ := createLocation_ok_inv hc
      have hij : locationId ≠ j := by
        intro hEq
        exact hne (by rw [hEq]; exact hj)
      rw [applyOp, hc, hs₂]
      simp [hij]
  | verify j cl cg pl pg =>
    by_cases hij : locationId = j
    · subst hij
      have herr : verifyLocation oracle s locationId cl cg pl pg =
          .error .locationAlreadyVerified := by
        unfold verifyLocation
        rw [if_neg hne, if_pos hv]
      simp [applyOp, herr]
    · cases hc : verifyLocation oracle s j cl cg pl pg with
      | error e => simp [applyOp, hc]
      | ok p =>
        obtain ⟨s₂, lat, lng⟩ := p
        obtain ⟨-, -, -, -, hs₂⟩ := verifyLocation_ok_inv hc
        rw [applyOp, hc, hs₂]
        simp [hij]
  | checkProx _ _ _ => rfl
  | getLoc _ => rfl
  | listIds => rfl

/-- A record that exists and is verified stays frozen across any sequence
of contract calls. -/
lemma execOps_frozen (oracle : FHEOracle) (ops : List Op) :
    ∀ (s : ContractState) (locationId : String),
      (s.locationData locationId).locationId ≠ "" →
      (s.locationData locationId).isVerified = true →
      (execOps oracle s ops).locationData locationId =
        s.locationData locationId := by
  induction ops with
  | nil => intro s locationId _ _; rfl
  | cons op ops ih =>
    intro s locationId h1 h2
    have hstep := applyOp_frozen oracle s op locationId h1 h2
    have htail := ih (applyOp oracle s op) locationId
      (by rw [hstep]; exact h1) (by rw [hstep]; exact h2)
    calc (execOps oracle s (op :: ops)).locationData locationId
        = (execOps oracle (applyOp oracle s op) ops).locationData locationId := rfl
      _ = (applyOp oracle s op).locationData locationId := htail
      _ = s.locationData locationId := hstep

/-- Running a concatenation of call sequences is running them in turn. -/
lemma execOps_append (oracle : FHEOracle) (l₁ l₂ : List Op) :
    ∀ s : ContractState,
      execOps oracle s (l₁ ++ l₂) = execOps oracle (execOps oracle s l₁) l₂ := by
  induction l₁ with
  | nil => intro s; rfl
  | cons op ops ih => intro s; exact ih (applyOp oracle s op)

/-- State invariant: every verified record has a nonempty stored id. -/
def GoodState (s : ContractState) : Prop :=
  ∀ id, (s.locationData id).isVerified = true →
    (s.locationData id).locationId ≠ ""

lemma goodState_applyOp (oracle : FHEOracle) (s : ContractState) (op : Op)
    (hg : GoodState s) : GoodState (applyOp oracle s op) := by
  cases op with
  | create j e₁ e₂ r d snd ts =>
    cases hc : createLocation s j e₁ e₂ r d snd ts with
    | error e => simpa [applyOp, hc] using hg
    | ok s₂ =>
      obtain ⟨-, -, -, hs₂⟩ := createLocation_ok_inv hc
      intro id hv
      rw [applyOp, hc, hs₂] at hv ⊢
      by_cases hij : id = j
      · simp [hij] at hv
      · simp [hij] at hv ⊢
        exact hg id hv
  | verify j cl cg pl pg =>
    cases hc : verifyLocation oracle s j cl cg pl pg with
    | error e => simpa [applyOp, hc] using hg
    | ok p =>
      obtain ⟨s₂, lat, lng⟩ := p
      obtain ⟨hne, -, -, -, hs₂⟩ := verifyLocation_ok_inv hc
      intro id hv
      rw [applyOp, hc, hs₂] at hv ⊢
      by_cases hij : id = j
      · simpa [hij] using hne
      · simp [hij] at hv ⊢
        exact hg id hv
  | checkProx _ _ _ => exact hg
  | getLoc _ => exact hg
  | listIds => exact hg

lemma goodState_initial : GoodState initialState := by
  intro id hv
  simp [initialState, emptyRecord] at hv

lemma goodState_execOps (oracle : FHEOracle) (ops : List Op) :
    ∀ s : ContractState, GoodState s → GoodState (execOps oracle s ops) := by
  induction ops with
  | nil => intro s hg; exact hg
  | cons op ops ih =>
    intro s hg
    exact ih (applyOp oracle s op) (goodState_applyOp oracle s op hg)

/-- The mapping slot of the empty-string key always stores an empty id
string, in every reachable state: `createLocation ""` writes `""` there and
`verifyLocation` never touches the id field. -/
lemma emptyKey_applyOp (oracle : FHEOracle) (s : ContractState) (op : Op)
    (h : (s.locationData "").locationId = "") :
    ((applyOp oracle s op).locationData "").locationId = "" := by
  cases op with
  | create j e₁ e₂ r d snd ts =>
    cases hc : createLocation s j e₁ e₂ r d snd ts with
    | error e => simpa [applyOp, hc] using h
    | ok s₂ =>
      obtain ⟨-, -, -, hs₂⟩ := createLocation_ok_inv hc
      rw [applyOp, hc, hs₂]
      by_cases hj : "" = j
      · simp [← hj]
      · simpa [hj] using h
  | verify j cl cg pl pg =>
    cases hc : verifyLocation oracle s j cl cg pl pg with
    | error e => simpa [applyOp, hc] using h
    | ok p =>
      obtain ⟨s₂, lat, lng⟩ := p
      obtain ⟨-, -, -, -, hs₂⟩ := verifyLocation_ok_inv hc
      rw [applyOp, hc, hs₂]
      by_cases hj : "" = j
      · simpa [← hj] using h
      · simpa [hj] using h
  | checkProx _ _ _ => exact h
  | getLoc _ => exact h
  | listIds => exact h

lemma emptyKey_execOps (oracle : FHEOracle) (ops : List Op) :
    ∀ s : ContractState, (s.locationData "").locationId = "" →
      ((execOps oracle s ops).locationData "").locationId = "" := by
  induction ops with
  | nil => intro s h; exact h
  | cons op ops ih =>
    intro s h
    exact ih (applyOp oracle s op) (emptyKey_applyOp oracle s op h)

/-- Every contract call leaves `locationIds` unchanged or appends to it. -/
lemma applyOp_ids (oracle : FHEOracle) (s : ContractState) (op : Op) :
    ∃ t, (applyOp oracle s op).locationIds = s.locationIds ++ t := by
  cases op with
  | create j e₁ e₂ r d snd ts =>
    cases hc : createLocation s j e₁ e₂ r d snd ts with
    | error e => exact ⟨[], by simp [applyOp, hc]⟩
    | ok s₂ =>
      obtain ⟨-, -, -, hs₂⟩ := createLocation_ok_inv hc
      exact ⟨[j], by rw [applyOp, hc, hs₂]⟩
  | verify j cl cg pl pg =>
    cases hc : verifyLocation oracle s j cl cg pl pg with
    | error e => exact ⟨[], by simp [applyOp, hc]⟩
    | ok p =>
      obtain ⟨s₂, lat, lng⟩ := p
      obtain ⟨-, -, -, -, hs₂⟩ := verifyLocation_ok_inv hc
      exact ⟨[], by rw [applyOp, hc, hs₂]; simp⟩
  | checkProx _ _ _ => exact ⟨[], by simp [applyOp]⟩
  | getLoc _ => exact ⟨[], by simp [applyOp]⟩
  | listIds => exact ⟨[], by simp [applyOp]⟩

lemma execOps_ids (oracle : FHEOracle) (ops : List Op) :
    ∀ s : ContractState,
      ∃ t, (execOps oracle s ops).locationIds = s.locationIds ++ t := by
  induction ops with
  | nil => intro s; exact ⟨[], by simp [execOps]⟩
  | cons op ops ih =>
    intro s
    obtain ⟨t₁, h₁⟩ := applyOp_ids oracle s op
    obtain ⟨t₂, h₂⟩ := ih (applyOp oracle s op)
    exact ⟨t₁ ++ t₂, by
      calc (execOps oracle s (op :: ops)).locationIds
          = (execOps oracle (applyOp oracle s op) ops).locationIds := rfl
        _ = (applyOp oracle s op).locationIds ++ t₂ := h₂
        _ = s.locationIds ++ (t₁ ++ t₂) := by rw [h₁, List.append_assoc]⟩

/-- C2: once `verifyLocation` has succeeded on a record, any second
`verifyLocation` call on that id — with any oracle, clear values and
proofs — reverts with `AlreadyVerified`, and the transaction leaves the
storage (in particular `decryptedLatitude`/`decryptedLongitude`)
unchanged. -/
theorem C2_reveal_at_most_once
    (oracle oracle' : FHEOracle) (s : ContractState) (locationId : String)
    (cLat cLng : Nat) (pLat pLng : List Nat)
    (s' : ContractState) (lat lng : Nat)
    (cLat' cLng' : Nat) (pLat' pLng' : List Nat)
    (h : verifyLocation oracle s locationId cLat cLng pLat pLng =
          .ok (s', lat, lng)) :
    verifyLocation oracle' s' locationId cLat' cLng' pLat' pLng' =
      .error .locationAlreadyVerified ∧
    applyOp oracle' s' (.verify locationId cLat' cLng' pLat' pLng') = s' := by
  simp only [verifyLocation] at h
  split_ifs at h with h1 h2 h3 h4
  simp only [Except.ok.injEq, Prod.mk.injEq] at h
  obtain ⟨hs, -, -⟩ := h
  have hrec : s'.locationData locationId =
      { s.locationData locationId with
        decryptedLatitude := cLat, decryptedLongitude := cLng,
        isVerified := true } := by
    rw [← hs]; simp
  have hne : (s'.locationData locationId).locationId ≠ "" := by
    rw [hrec]; exact h1
  have hver : (s'.locationData locationId).isVerified = true := by
    rw [hrec]
  have herr : verifyLocation oracle' s' locationId cLat' cLng' pLat' pLng' =
      .error .locationAlreadyVerified := by
    unfold verifyLocation
    rw [if_neg hne, if_pos hver]
  exact ⟨herr, by simp [applyOp, herr]⟩

/-- C2 witness: a concrete successful reveal followed by a rejected second
reveal. -/
theorem C2_witness :
    verifyLocation noOracle
      (applyOp yesOracle
        (applyOp yesOracle initialState (.create "a" ⟨7, true⟩ ⟨8, true⟩ 5 "d" 1 0))
        (.verify "a" 7 8 [] []))
      "a" 9 9 [] [] = .error .locationAlreadyVerified := by
  exact (C2_reveal_at_most_once yesOracle noOracle
    (applyOp yesOracle initialState (.create "a" ⟨7, true⟩ ⟨8, true⟩ 5 "d" 1 0))
    "a" 7 8 [] [] _ 7 8 9 9 [] [] rfl).1

/-- C4: on an existing but unverified record, `checkLocationProximity`
reverts with `NotVerified` for every claimant ciphertext pair, valid or
not — the precondition checks precede the ciphertext imports. -/
theorem C4_unverified_proximity_fails
    (s : ContractState) (locationId : String)
    (e₁ e₂ : ExternalEuint32)
    (hex : (s.locationData locationId).locationId ≠ "")
    (hunv : (s.locationData locationId).isVerified = false) :
    checkLocationProximity s locationId e₁ e₂ = .error .locationNotVerified := by
  unfold checkLocationProximity
  rw [if_neg hex, if_pos]
  simp [hunv]

/-- C4 witness: a concrete registered-but-unverified record rejects a
proximity check with an invalid claimant ciphertext proof. -/
theorem C4_witness :
    checkLocationProximity
      (applyOp yesOracle initialState (.create "a" ⟨7, true⟩ ⟨8, true⟩ 5 "d" 1 0))
      "a" ⟨3, false⟩ ⟨4, false⟩ = .error .locationNotVerified := by
  exact C4_unverified_proximity_fails _ "a" ⟨3, false⟩ ⟨4, false⟩
    (by decide) (by decide)

/-- C7: `verifyLocation` is atomic.  Any failure (in particular a failed
signature check) reverts the transaction with the storage untouched; on
success the two decrypted fields and the verified flag of the target
record are written together, and nothing else changes. -/
theorem C7_reveal_atomic
    (oracle : FHEOracle) (s : ContractState) (locationId : String)
    (cLat cLng : Nat) (pLat pLng : List Nat) :
    (∀ e, verifyLocation oracle s locationId cLat cLng pLat pLng = .error e →
        applyOp oracle s (.verify locationId cLat cLng pLat pLng) = s) ∧
    (∀ s' lat lng,
        verifyLocation oracle s locationId cLat cLng pLat pLng =
          .ok (s', lat, lng) →
        s'.locationData locationId =
          { s.locationData locationId with
            decryptedLatitude := cLat, decryptedLongitude := cLng,
            isVerified := true } ∧
        (∀ j, j ≠ locationId → s'.locationData j = s.locationData j) ∧
        s'.locationIds = s.locationIds) := by
  constructor
  · intro e he
    simp [applyOp, he]
  · intro s' lat lng h
    simp only [verifyLocation] at h
    split_ifs at h with h1 h2 h3 h4
    simp only [Except.ok.injEq, Prod.mk.injEq] at h
    obtain ⟨hs, -, -⟩ := h
    refine ⟨?_, ?_, ?_⟩
    · rw [← hs]; simp
    · intro j hj
      rw [← hs]
      simp [hj]
    · rw [← hs]

/-- C7 witness: with an all-rejecting oracle the reveal fails and the
storage is unchanged. -/
theorem C7_witness :
    applyOp noOracle
      (applyOp yesOracle initialState (.create "a" ⟨7, true⟩ ⟨8, true⟩ 5 "d" 1 0))
      (.verify "a" 7 8 [] []) =
    applyOp yesOracle initialState (.create "a" ⟨7, true⟩ ⟨8, true⟩ 5 "d" 1 0) := by
  exact (C7_reveal_atomic noOracle
    (applyOp yesOracle initialState (.create "a" ⟨7, true⟩ ⟨8, true⟩ 5 "d" 1 0))
    "a" 7 8 [] []).1 .signatureCheckFailed rfl

/-- The state after a first `createLocation` under the empty-string id. -/
def dupFirst : ContractState :=
  applyOp yesOracle initialState (.create "" ⟨1, true⟩ ⟨2, true⟩ 5 "d" 1 0)

/-- The state after a second `createLocation` under the empty-string id. -/
def dupSecond : ContractState :=
  applyOp yesOracle dupFirst (.create "" ⟨1, true⟩ ⟨2, true⟩ 7 "e" 2 1)

/-- C1 counterexample: under the empty-string id, a first registration is
admitted, yet a second registration with the same id does NOT revert with
`DuplicateId` — it succeeds, overwrites the stored record (radius 5
becomes 7) and appends a duplicate id entry. -/
theorem C1_counterexample :
    createLocation initialState "" ⟨1, true⟩ ⟨2, true⟩ 5 "d" 1 0 =
      .ok dupFirst ∧
    createLocation dupFirst "" ⟨1, true⟩ ⟨2, true⟩ 7 "e" 2 1 =
      .ok dupSecond ∧
    (dupFirst.locationData "").publicRadius = 5 ∧
    (dupSecond.locationData "").publicRadius = 7 ∧
    dupSecond.locationIds = ["", ""] := ⟨rfl, rfl, rfl, rfl, rfl⟩

/-- C1 (amended to nonempty ids): if `createLocation` has admitted a record
under a NONEMPTY id, a second `createLocation` with the same id reverts with
`DuplicateId` (the `"Location already exists"` require) and the transaction
leaves the stored record unchanged from the first call's result. -/
theorem C1_amended_duplicate_register_fails
    (oracle : FHEOracle) (s s' : ContractState) (locationId : String)
    (e₁ e₂ e₁' e₂' : ExternalEuint32) (r : Nat) (d : String) (snd ts : Nat)
    (r' : Nat) (d' : String) (snd' ts' : Nat)
    (hid : locationId ≠ "")
    (h : createLocation s locationId e₁ e₂ r d snd ts = .ok s') :
    createLocation s' locationId e₁' e₂' r' d' snd' ts' =
      .error .locationAlreadyExists ∧
    applyOp oracle s' (.create locationId e₁' e₂' r' d' snd' ts') = s' := by
  obtain ⟨-, -, -, hs'⟩ := createLocation_ok_inv h
  have hne : (s'.locationData locationId).locationId ≠ "" := by
    rw [hs']; simpa using hid
  have herr : createLocation s' locationId e₁' e₂' r' d' snd' ts' =
      .error .locationAlreadyExists := by
    unfold createLocation
    rw [if_pos hne]
  exact ⟨herr, by simp [applyOp, herr]⟩

/-- C1 witness: a concrete duplicate registration under id `"a"` reverts. -/
theorem C1_witness :
    createLocation (applyOp yesOracle initialState
        (.create "a" ⟨1, true⟩ ⟨2, true⟩ 5 "d" 1 0))
      "a" ⟨1, true⟩ ⟨2, true⟩ 7 "e" 2 1 = .error .locationAlreadyExists := by
  exact (C1_amended_duplicate_register_fails yesOracle initialState _ "a"
    ⟨1, true⟩ ⟨2, true⟩ ⟨1, true⟩ ⟨2, true⟩ 5 "d" 1 0 7 "e" 2 1
    (by decide) rfl).1

/-- C3: the `isVerified` flag is monotonic: if a record is verified after
some sequence of contract calls from deployment, it stays verified after
any further calls (registration, reveal, proximity checks and queries). -/
theorem C3_verified_monotonic (oracle : FHEOracle) (ops₁ ops₂ : List Op)
    (locationId : String)
    (h : ((execOps oracle initialState ops₁).locationData
            locationId).isVerified = true) :
    ((execOps oracle initialState (ops₁ ++ ops₂)).locationData
        locationId).isVerified = true := by
  have hne := goodState_execOps oracle ops₁ initialState goodState_initial
    locationId h
  rw [execOps_append, execOps_frozen oracle ops₂ _ _ hne h]
  exact h

/-- C3 witness: verify a record, then run more calls; the flag is still
set. -/
theorem C3_witness :
    ((execOps yesOracle initialState
        ([.create "a" ⟨7, true⟩ ⟨8, true⟩ 5 "d" 1 0, .verify "a" 7 8 [] []] ++
         [.verify "a" 9 9 [] [], .create "a" ⟨1, true⟩ ⟨2, true⟩ 9 "e" 2 1,
          .checkProx "a" ⟨7, true⟩ ⟨8, true⟩, .getLoc "a", .listIds])).locationData
      "a").isVerified = true := by
  exact C3_verified_monotonic yesOracle
    [.create "a" ⟨7, true⟩ ⟨8, true⟩ 5 "d" 1 0, .verify "a" 7 8 [] []]
    [.verify "a" 9 9 [] [], .create "a" ⟨1, true⟩ ⟨2, true⟩ 9 "e" 2 1,
     .checkProx "a" ⟨7, true⟩ ⟨8, true⟩, .getLoc "a", .listIds]
    "a" rfl

/-- The state after registering id `"a"` and revealing it with the given
clear pair. -/
def revealedWith (cLat cLng : Nat) : ContractState :=
  applyOp yesOracle
    (applyOp yesOracle initialState (.create "a" ⟨7, true⟩ ⟨8, true⟩ 5 "d" 1 0))
    (.verify "a" cLat cLng [] [])

/-- C8 counterexample: `getLocationData` does not report the decrypted
coordinates at all — two runs whose reveals succeed with different decoded
pairs produce identical `getLocationData` views, so no later query reports
"exactly those values". -/
theorem C8_counterexample :
    verifyLocation yesOracle
        (applyOp yesOracle initialState
          (.create "a" ⟨7, true⟩ ⟨8, true⟩ 5 "d" 1 0)) "a" 1 2 [] [] =
      .ok (revealedWith 1 2, 1, 2) ∧
    verifyLocation yesOracle
        (applyOp yesOracle initialState
          (.create "a" ⟨7, true⟩ ⟨8, true⟩ 5 "d" 1 0)) "a" 3 4 [] [] =
      .ok (revealedWith 3 4, 3, 4) ∧
    ((revealedWith 1 2).locationData "a").decryptedLatitude = 1 ∧
    ((revealedWith 3 4).locationData "a").decryptedLatitude = 3 ∧
    getLocationData (revealedWith 1 2) "a" =
      getLocationData (revealedWith 3 4) "a" :=
  ⟨rfl, rfl, rfl, rfl, rfl⟩

/-- C8 (amended): if `revealLocation` succeeds with decoded `(lat, lng)`,
then after any further contract calls `getLocationData` still succeeds and
reports `verified = true`, and the record's stored
`decryptedLatitude`/`decryptedLongitude` remain exactly `(lat, lng)`;
the `getLocationData` view itself does not include the decrypted
coordinates. -/
theorem C8_amended_roundtrip
    (oracle oracle' : FHEOracle) (s : ContractState) (locationId : String)
    (cLat cLng : Nat) (pLat pLng : List Nat) (s' : ContractState)
    (lat lng : Nat) (ops : List Op)
    (h : verifyLocation oracle s locationId cLat cLng pLat pLng =
          .ok (s', lat, lng)) :
    (∃ view, getLocationData (execOps oracle' s' ops) locationId = .ok view ∧
       view.isVerified = true) ∧
    ((execOps oracle' s' ops).locationData locationId).decryptedLatitude =
      lat ∧
    ((execOps oracle' s' ops).locationData locationId).decryptedLongitude =
      lng := by
  obtain ⟨hne, -, hlat, hlng, hs'⟩ := verifyLocation_ok_inv h
  have hrec : s'.locationData locationId =
      { locationId := (s.locationData locationId).locationId,
        encryptedLatitude := (s.locationData locationId).encryptedLatitude,
        encryptedLongitude := (s.locationData locationId).encryptedLongitude,
        publicRadius := (s.locationData locationId).publicRadius,
        description := (s.locationData locationId).description,
        creator := (s.locationData locationId).creator,
        timestamp := (s.locationData locationId).timestamp,
        isVerified := true, decryptedLatitude := cLat,
        decryptedLongitude := cLng } := by
    rw [hs']; simp
  have hne' : (s'.locationData locationId).locationId ≠ "" := by
    rw [hrec]; exact hne
  have hver' : (s'.locationData locationId).isVerified = true := by
    rw [hrec]
  have hfrozen := execOps_frozen oracle' ops s' locationId hne' hver'
  refine ⟨⟨{ description := (s.locationData locationId).description,
             creator := (s.locationData locationId).creator,
             timestamp := (s.locationData locationId).timestamp,
             isVerified := true,
             publicRadius := (s.locationData locationId).publicRadius },
           ?_, rfl⟩, ?_, ?_⟩
  · unfold getLocationData
    rw [if_neg (by rw [hfrozen]; exact hne')]
    simp only [hfrozen, hrec]
  · rw [hfrozen, hrec, hlat]
  · rw [hfrozen, hrec, hlng]

/-- C8 witness: reveal `(1, 2)`, run further calls, and observe the flag
and the stored pair. -/
theorem C8_witness :
    (∃ view, getLocationData
        (execOps yesOracle (revealedWith 1 2) [.verify "a" 9 9 [] [], .getLoc "a"])
        "a" = .ok view ∧ view.isVerified = true) ∧
    ((execOps yesOracle (revealedWith 1 2)
        [.verify "a" 9 9 [] [], .getLoc "a"]).locationData
      "a").decryptedLatitude = 1 ∧
    ((execOps yesOracle (revealedWith 1 2)
        [.verify "a" 9 9 [] [], .getLoc "a"]).locationData
      "a").decryptedLongitude = 2 := by
  exact C8_amended_roundtrip yesOracle yesOracle
    (applyOp yesOracle initialState (.create "a" ⟨7, true⟩ ⟨8, true⟩ 5 "d" 1 0))
    "a" 1 2 [] [] (revealedWith 1 2) 1 2
    [.verify "a" 9 9 [] [], .getLoc "a"] rfl

/-- C9: `getAllLocationIds` returns the stored id sequence; a successful
`createLocation` appends its id at the end; and across any sequence of
contract calls the id sequence only ever grows at the end — no call
removes or reorders existing entries. -/
theorem C9_ids_append_only
    (oracle : FHEOracle) (s s' : ContractState) (ops : List Op)
    (locationId : String) (e₁ e₂ : ExternalEuint32) (r : Nat) (d : String)
    (snd ts : Nat) :
    getAllLocationIds s = s.locationIds ∧
    (createLocation s locationId e₁ e₂ r d snd ts = .ok s' →
      s'.locationIds = s.locationIds ++ [locationId]) ∧
    ∃ t, (execOps oracle s ops).locationIds = s.locationIds ++ t := by
  refine ⟨rfl, ?_, execOps_ids oracle ops s⟩
  intro h
  obtain ⟨-, -, -, hs'⟩ := createLocation_ok_inv h
  rw [hs']

/-- C9 witness: a concrete registration appends its id. -/
theorem C9_witness :
    (applyOp yesOracle initialState
        (.create "a" ⟨1, true⟩ ⟨2, true⟩ 5 "d" 1 0)).locationIds = [] ++ ["a"] := by
  exact (C9_ids_append_only yesOracle initialState
    (applyOp yesOracle initialState (.create "a" ⟨1, true⟩ ⟨2, true⟩ 5 "d" 1 0))
    [] "a" ⟨1, true⟩ ⟨2, true⟩ 5 "d" 1 0).2.1 rfl

/-- C10: in every reachable state the empty-string id behaves as
nonexistent: `createLocation ""` never reverts with `DuplicateId` (and with
valid proofs it succeeds, overwrites the stored record and appends a
duplicate entry to the id list), while `verifyLocation`,
`checkLocationProximity` and `getLocationData` on `""` always revert with
`NotFound`. -/
theorem C10_empty_id_loophole
    (oracle oracle' : FHEOracle) (ops : List Op)
    (e₁ e₂ eu₁ eu₂ : ExternalEuint32) (r : Nat) (d : String)
    (snd ts cLat cLng : Nat) (pLat pLng : List Nat) :
    createLocation (execOps oracle initialState ops) "" e₁ e₂ r d snd ts ≠
      .error .locationAlreadyExists ∧
    (e₁.validProof = true → e₂.validProof = true →
      createLocation (execOps oracle initialState ops) "" e₁ e₂ r d snd ts =
        .ok { locationData := fun id =>
                if id = "" then
                  { locationId := "", encryptedLatitude := fromExternal e₁,
                    encryptedLongitude := fromExternal e₂, publicRadius := r,
                    description := d, creator := snd, timestamp := ts,
                    isVerified := false, decryptedLatitude := 0,
                    decryptedLongitude := 0 }
                else (execOps oracle initialState ops).locationData id,
              locationIds :=
                (execOps oracle initialState ops).locationIds ++ [""] }) ∧
    verifyLocation oracle' (execOps oracle initialState ops) "" cLat cLng
      pLat pLng = .error .locationDoesNotExist ∧
    checkLocationProximity (execOps oracle initialState ops) "" eu₁ eu₂ =
      .error .locationDoesNotExist ∧
    getLocationData (execOps oracle initialState ops) "" =
      .error .locationDoesNotExist := by
  have hkey := emptyKey_execOps oracle ops initialState rfl
  refine ⟨?_, ?_, ?_, ?_, ?_⟩
  · unfold createLocation
    rw [if_neg (by simp [hkey])]
    split_ifs <;> simp
  · intro h₁ h₂
    unfold createLocation
    rw [if_neg (by simp [hkey])]
    rw [if_neg (by simp [isInitialized_fromExternal, h₁]),
        if_neg (by simp [isInitialized_fromExternal, h₂])]
  · unfold verifyLocation
    rw [if_pos hkey]
  · unfold checkLocationProximity
    rw [if_pos hkey]
  · unfold getLocationData
    rw [if_pos hkey]

/-- C10 witness: concretely, after registering `""` once, a second
registration still succeeds and a lookup still reports `NotFound`. -/
theorem C10_witness :
    createLocation
        (execOps yesOracle initialState [.create "" ⟨1, true⟩ ⟨2, true⟩ 5 "d" 1 0])
        "" ⟨1, true⟩ ⟨2, true⟩ 7 "e" 2 1 ≠ .error .locationAlreadyExists ∧
    getLocationData
        (execOps yesOracle initialState [.create "" ⟨1, true⟩ ⟨2, true⟩ 5 "d" 1 0])
        "" = .error .locationDoesNotExist := by
  have h := C10_empty_id_loophole yesOracle yesOracle
    [.create "" ⟨1, true⟩ ⟨2, true⟩ 5 "d" 1 0]
    ⟨1, true⟩ ⟨2, true⟩ ⟨1, true⟩ ⟨2, true⟩ 7 "e" 2 1 3 4 [] []
  exact ⟨h.1, h.2.2.2.2⟩

lemma sub_sq_mod (D : Nat) (hD : D ≤ W) :
    (W - D) * (W - D) % W = D * D % W := by
  zify [hD]
  rw [show ((W : ℤ) - D) * ((W : ℤ) - D) = D * D + ((W : ℤ) - 2 * D) * W by
    ring]
  exact Int.add_mul_emod_self

/-- The square of a wrapping euint32 difference agrees modulo `2^32` with
the square of the absolute difference: `(u - c)² ≡ |u - c|² (mod 2^32)`. -/
lemma wrap_diff_sq_mod (u c : Nat) (hu : u < W) (hc : c < W) :
    (u + W - c) % W * ((u + W - c) % W) % W =
      ((u : ℤ) - c).natAbs * ((u : ℤ) - c).natAbs % W := by
  rcases le_or_lt c u with h | h
  · have h1 : (u + W - c) % W = u - c := by
      have he : u + W - c = u - c + W := by omega
      rw [he, Nat.add_mod_right, Nat.mod_eq_of_lt (by omega)]
    have h2 : ((u : ℤ) - c).natAbs = u - c := by
      rw [show (u : ℤ) - c = ((u - c : Nat) : ℤ) by push_cast [h]; ring]
      exact Int.natAbs_ofNat _
    rw [h1, h2]
  · have h1 : (u + W - c) % W = W - (c - u) := by
      rw [Nat.mod_eq_of_lt (by omega)]
      omega
    have h2 : ((u : ℤ) - c).natAbs = c - u := by
      rw [show (u : ℤ) - c = -((c - u : Nat) : ℤ) by
        push_cast [Nat.le_of_lt h]; ring]
      rw [Int.natAbs_neg]
      exact Int.natAbs_ofNat _
    rw [h1, h2]
    exact sub_sq_mod (c - u) (by omega)

/-- The wrapped squared distance equals the true squared distance as long
as the true squared distance fits in 32 bits. -/
lemma wrap_dist_sq_eq (u₁ u₂ c₁ c₂ : Nat) (hu1 : u₁ < W) (hu2 : u₂ < W)
    (hc1 : c₁ < W) (hc2 : c₂ < W)
    (hdist : ((u₁ : ℤ) - c₁).natAbs * ((u₁ : ℤ) - c₁).natAbs +
             ((u₂ : ℤ) - c₂).natAbs * ((u₂ : ℤ) - c₂).natAbs < W) :
    ((u₁ + W - c₁) % W * ((u₁ + W - c₁) % W) % W +
     (u₂ + W - c₂) % W * ((u₂ + W - c₂) % W) % W) % W =
      ((u₁ : ℤ) - c₁).natAbs * ((u₁ : ℤ) - c₁).natAbs +
      ((u₂ : ℤ) - c₂).natAbs * ((u₂ : ℤ) - c₂).natAbs := by
  rw [wrap_diff_sq_mod u₁ c₁ hu1 hc1, wrap_diff_sq_mod u₂ c₂ hu2 hc2,
      ← Nat.add_mod]
  exact Nat.mod_eq_of_lt hdist

/-- C5 counterexample: the euint32 arithmetic wraps modulo `2^32`, so the
returned boolean is NOT in general `distSq ≤ radius²`: with center
`(0, 0)`, radius `0` and a claimant at `(65536, 0)`, the true squared
distance `65536² = 2^32` is far beyond `radius² = 0`, yet the contract
classifies the claimant inside. -/
theorem C5_counterexample :
    checkLocationProximity (mkVerified 0 0 0) "a" ⟨65536, true⟩ ⟨0, true⟩ =
      .ok true ∧
    ¬ (((65536 : ℤ) - 0).natAbs * ((65536 : ℤ) - 0).natAbs +
       ((0 : ℤ) - 0).natAbs * ((0 : ℤ) - 0).natAbs ≤ 0 * 0) :=
  ⟨rfl, by decide⟩

/-- C5 (amended with no-overflow side conditions): for a verified record
with encrypted center `(c₁, c₂)` and radius `r`, and a valid claimant
ciphertext pair encrypting `(u₁, u₂)`, as long as the true squared
distance and `r²` both fit in 32 bits, `checkLocationProximity` returns
exactly `distSq ≤ r²`; in particular a claimant exactly at squared
distance `r²` is inside and one at `r² + 1` is outside. -/
theorem C5_amended_proximity_exact
    (s : ContractState) (locationId : String) (u₁ u₂ c₁ c₂ r : Nat)
    (hne : (s.locationData locationId).locationId ≠ "")
    (hv : (s.locationData locationId).isVerified = true)
    (hc1v : (s.locationData locationId).encryptedLatitude.val = c₁)
    (hc2v : (s.locationData locationId).encryptedLongitude.val = c₂)
    (hrv : (s.locationData locationId).publicRadius = r)
    (hu1 : u₁ < W) (hu2 : u₂ < W) (hc1 : c₁ < W) (hc2 : c₂ < W)
    (hdist : ((u₁ : ℤ) - c₁).natAbs * ((u₁ : ℤ) - c₁).natAbs +
             ((u₂ : ℤ) - c₂).natAbs * ((u₂ : ℤ) - c₂).natAbs < W)
    (hrad : r * r < W) :
    checkLocationProximity s locationId ⟨u₁, true⟩ ⟨u₂, true⟩ =
      .ok (decide
        (((u₁ : ℤ) - c₁).natAbs * ((u₁ : ℤ) - c₁).natAbs +
         ((u₂ : ℤ) - c₂).natAbs * ((u₂ : ℤ) - c₂).natAbs ≤ r * r)) ∧
    (((u₁ : ℤ) - c₁).natAbs * ((u₁ : ℤ) - c₁).natAbs +
       ((u₂ : ℤ) - c₂).natAbs * ((u₂ : ℤ) - c₂).natAbs = r * r →
      checkLocationProximity s locationId ⟨u₁, true⟩ ⟨u₂, true⟩ = .ok true) ∧
    (((u₁ : ℤ) - c₁).natAbs * ((u₁ : ℤ) - c₁).natAbs +
       ((u₂ : ℤ) - c₂).natAbs * ((u₂ : ℤ) - c₂).natAbs = r * r + 1 →
      checkLocationProximity s locationId ⟨u₁, true⟩ ⟨u₂, true⟩ = .ok false) := by
  have hWlt : W < W256 := by
    have : (2 : Nat) ^ 32 < 2 ^ 256 :=
      Nat.pow_lt_pow_right (by norm_num) (by norm_num)
    exact this
  have hmain : checkLocationProximity s locationId ⟨u₁, true⟩ ⟨u₂, true⟩ =
      .ok (decide
        (((u₁ : ℤ) - c₁).natAbs * ((u₁ : ℤ) - c₁).natAbs +
         ((u₂ : ℤ) - c₂).natAbs * ((u₂ : ℤ) - c₂).natAbs ≤ r * r)) := by
    unfold checkLocationProximity
    rw [if_neg hne, if_neg (by simp [hv]), hrv,
        if_neg (by exact Nat.not_le.mpr (Nat.lt_trans hrad hWlt))]
    simp only [fromExternal, fheSub, fheMul, fheAdd, asEuint32, fheLeq,
      hc1v, hc2v, hrv, if_true, Except.ok.injEq]
    rw [Nat.mod_eq_of_lt hu1, Nat.mod_eq_of_lt hu2, Nat.mod_eq_of_lt hrad,
        wrap_dist_sq_eq u₁ u₂ c₁ c₂ hu1 hu2 hc1 hc2 hdist]
  refine ⟨hmain, fun he => ?_, fun he => ?_⟩
  · rw [hmain, he]; simp
  · rw [hmain, he]; simp

/-- C5 witness: center `(10, 20)`, radius `5`, claimant `(13, 24)`:
squared distance `9 + 16 = 25 = radius²`, classified inside. -/
theorem C5_witness :
    checkLocationProximity (mkVerified 10 20 5) "a" ⟨13, true⟩ ⟨24, true⟩ =
      .ok true := by
  have h := (C5_amended_proximity_exact (mkVerified 10 20 5) "a" 13 24 10 20 5
    (by decide) (by decide) (by decide) (by decide) (by decide)
    (by decide) (by decide) (by decide) (by decide) (by decide)
    (by decide)).2.1 (by decide)
  exact h

/-- C6: the contract performs NO overflow check on the squared terms: with
center `(0, 0)` and radius `0`, a claimant at `(131072, 0)` has true
squared distance `2^34`, which silently wraps to `0` modulo `2^32`, and
the call returns `.ok true` (claimant "inside") instead of any
overflow error — no `NumericOverflow`-like revert exists in the code. -/
theorem C6_overflow_silently_wraps :
    checkLocationProximity (mkVerified 0 0 0) "a" ⟨131072, true⟩ ⟨0, true⟩ =
      .ok true ∧
    ¬ ((131072 : Nat) * 131072 + 0 * 0 ≤ 0 * 0) ∧
    (131072 * 131072) % W = 0 :=
  ⟨rfl, by decide, by decide⟩

end GeoQuestFHE
